import Mathlib

/-!
Shallow embedding of `src/main.rs` of the flappy_bevy repository.

The game state owned by the core logic is modelled explicitly: the player's
velocity/transform/health/score components, the list of pipe entities (in
query-iteration order), the `physics_pipeline_active` flag of the Rapier
configuration, and the score text surface.  `f32` coordinates are modelled
as rationals (all arithmetic the core performs on them is exact at these
magnitudes), the `u8` counters as naturals reduced modulo 2^8 where the
source increments without a bounds check, and the random generator
`fastrand::i32` as an explicit stream `rng : ℕ → ℤ` consumed left to right.
-/

namespace FlappyBevy

/-- Screen width constant (`SCREEN_WIDTH: f32 = 400.0`). -/
def SCREEN_WIDTH : ℚ := 400

/-- Screen height constant (`SCREEN_HEIGHT: f32 = 600.0`). -/
def SCREEN_HEIGHT : ℚ := 600

/-- Vertical gap between the two members of a pipe pair
(`VERTICAL_SPACE_BETWEEN_PIPES: f32 = 120.0`). -/
def VERTICAL_SPACE_BETWEEN_PIPES : ℚ := 120

/-- Jump impulse constant (`JUMP_FORCE: f32 = 300.0`). -/
def JUMP_FORCE : ℚ := 300

/-- Model of Bevy's `Vec2` with exact rational components. -/
structure Vec2 where
  x : ℚ
  y : ℚ
  deriving DecidableEq

/-- Model of Bevy's `Vec3` with exact rational components. -/
structure Vec3 where
  x : ℚ
  y : ℚ
  z : ℚ
  deriving DecidableEq

/-- `enum PipeType { UP, DOWN }`. -/
inductive PipeType where
  | UP : PipeType
  | DOWN : PipeType
  deriving DecidableEq

/-- `struct Pipe { pipe_type, original_x }` tag component. -/
structure Pipe where
  pipe_type : PipeType
  original_x : ℚ
  deriving DecidableEq

/-- A pipe entity as the systems see it: its `Pipe` component and the
translation of its `Transform`. -/
structure PipeEntity where
  pipe : Pipe
  translation : Vec3
  deriving DecidableEq

/-- The player entity's mutable components: `Velocity { linvel, angvel }`,
`Transform { translation, rotation }` (the rotation quaternion is always
`Quat::from_rotation_z(a)` in this program, so it is represented by the
angle `a` itself, stored as `rot_z`), `Health { current: u8 }` and
`Score { current: u8 }` (naturals, kept below 2^8). -/
structure PlayerState where
  linvel : Vec2
  angvel : ℚ
  translation : Vec3
  rot_z : ℚ
  health : ℕ
  score : ℕ
  deriving DecidableEq

/-- Whole game state touched by the five `Update` systems: the player, the
pipes in query order, Rapier's `physics_pipeline_active` flag, the score
text surface, and the position in the random stream. -/
structure GameState where
  player : PlayerState
  pipes : List PipeEntity
  physics_pipeline_active : Bool
  score_text : String
  rng_idx : ℕ
  deriving DecidableEq

/-- The two edge-triggered inputs polled by `process_player_input`:
`input.just_pressed(KeyCode::Space)` and `input.just_pressed(KeyCode::R)`. -/
structure InputState where
  space_just_pressed : Bool
  r_just_pressed : Bool
  deriving DecidableEq

/-- The pipe-reset performed for each pipe inside the restart branch:
`pipe_transform.translation = Vec3::new(pipe.original_x, y, z)`. -/
def restartPipeReset (pe : PipeEntity) : PipeEntity :=
  ⟨pe.pipe, ⟨pe.pipe.original_x, pe.translation.y, pe.translation.z⟩⟩

/-- System `process_player_input` (src/main.rs:260-304): jump impulse when
Space is just pressed, the player is below the top of the screen and health
is positive; then the cosmetic tilt `rotation = from_rotation_z(linvel.y /
JUMP_FORCE * 0.5)`; then, when R is just pressed, the restart block. -/
def process_player_input (input : InputState) (s : GameState) : GameState :=
  let p0 := s.player
  let p1 :=
    if input.space_just_pressed = true ∧ p0.translation.y < SCREEN_HEIGHT / 2 ∧
        0 < p0.health then
      { p0 with linvel := ⟨0, JUMP_FORCE⟩ }
    else p0
  let p2 := { p1 with rot_z := p1.linvel.y / JUMP_FORCE * (1 / 2) }
  if input.r_just_pressed = true then
    { s with
      pipes := s.pipes.map restartPipeReset
      player :=
        { p2 with
          linvel := ⟨0, 0⟩
          angvel := 0
          health := 1
          translation := ⟨0, 0, 0⟩
          rot_z := 0 }
      physics_pipeline_active := true }
  else
    { s with player := p2 }

/-- System `check_player_health` (src/main.rs:330-340): when the player's
health is `<= 0`, stop the physics pipeline. -/
def check_player_health (s : GameState) : GameState :=
  if s.player.health ≤ 0 then { s with physics_pipeline_active := false } else s

/-- A `CollisionEvent` from bevy_rapier: the two participant entity indices
and whether the flags contain `CollisionEventFlags::SENSOR`. -/
inductive CollisionEvent where
  | Started : ℕ → ℕ → Bool → CollisionEvent
  | Stopped : ℕ → ℕ → Bool → CollisionEvent
  deriving DecidableEq

/-- One iteration of the event loop in `handle_collision_events`
(src/main.rs:346-369), acting on the player's `Health` and `Score`
components.  `playerIndex` is `_player.1.index()`.  The `u8` score is
incremented with an unchecked `+= 1`, modelled as wrapping modulo 2^8. -/
def handleCollisionEvent (playerIndex : ℕ) (p : PlayerState) :
    CollisionEvent → PlayerState
  | CollisionEvent.Started e1 e2 sensorFlag =>
    if sensorFlag = true ∧ (e1 = playerIndex ∨ e2 = playerIndex) then
      { p with score := (p.score + 1) % 2 ^ 8 }
    else if e1 = playerIndex ∨ e2 = playerIndex then
      { p with health := 0 }
    else p
  | CollisionEvent.Stopped _ _ _ => p

/-- System `handle_collision_events` (src/main.rs:342-370): drain this
tick's collision events in order. -/
def handle_collision_events (playerIndex : ℕ) (events : List CollisionEvent)
    (s : GameState) : GameState :=
  { s with player := events.foldl (handleCollisionEvent playerIndex) s.player }

/-- System `update_score` (src/main.rs:251-258): write the decimal string
of the player's score into the text surface. -/
def update_score (s : GameState) : GameState :=
  { s with score_text := toString s.player.score }

/-- The recycle threshold `-(SCREEN_WIDTH / 2.0) - (50.0 * 2.0)`
(50 is the pipe's width). -/
def pipeRecycleThreshold : ℚ := -(SCREEN_WIDTH / 2) - 50 * 2

/-- The respawn x position `SCREEN_WIDTH / 2.0 + 70.0`. -/
def pipeRespawnX : ℚ := SCREEN_WIDTH / 2 + 70

/-- The loop body of `process_pipes` (src/main.rs:306-328), walking the
pipes in query order while threading the local `y_offset` (initially `0.0`)
and the position in the random stream.  A recycled DOWN pipe draws
`fastrand::i32((-SCREEN_HEIGHT as i32 / 2)..-180)` as its new y; a recycled
UP pipe reuses the current `y_offset` (plus `320.0 + 120.0`) unless it is
still `0.0`; both get `x = SCREEN_WIDTH / 2.0 + 70.0`.  Returns the new
pipe list together with the final `(y_offset, index)`. -/
def processPipesGo (rng : ℕ → ℤ) :
    ℚ → ℕ → List PipeEntity → List PipeEntity × ℚ × ℕ
  | y_offset, idx, [] => ([], y_offset, idx)
  | y_offset, idx, pe :: rest =>
    if pe.translation.x ≤ pipeRecycleThreshold then
      if pe.pipe.pipe_type = PipeType.DOWN then
        let v : ℚ := ((rng idx : ℤ) : ℚ)
        let r := processPipesGo rng v (idx + 1) rest
        (⟨pe.pipe, ⟨pipeRespawnX, v, pe.translation.z⟩⟩ :: r.1, r.2)
      else
        let newY : ℚ :=
          if y_offset ≠ 0 then y_offset + 320 + VERTICAL_SPACE_BETWEEN_PIPES
          else pe.translation.y
        let r := processPipesGo rng y_offset idx rest
        (⟨pe.pipe, ⟨pipeRespawnX, newY, pe.translation.z⟩⟩ :: r.1, r.2)
    else
      let r := processPipesGo rng y_offset idx rest
      (pe :: r.1, r.2)

/-- System `process_pipes` as a whole-state transformer: run the loop with
`y_offset = 0.0` from the current position in the random stream. -/
def process_pipes (rng : ℕ → ℤ) (s : GameState) : GameState :=
  let r := processPipesGo rng 0 s.rng_idx s.pipes
  { s with pipes := r.1, rng_idx := r.2.2 }

/-- Default pipe entity used with `List.getD`. -/
def defaultPipe : PipeEntity := ⟨⟨PipeType.DOWN, 0⟩, ⟨0, 0, 0⟩⟩

/-- An event is a lethal contact for the player: a `Started` event whose
flags do not contain `SENSOR` and naming the player's entity index. -/
def isLethalFor (playerIndex : ℕ) : CollisionEvent → Bool
  | CollisionEvent.Started e1 e2 sensorFlag =>
    sensorFlag = false ∧ (e1 = playerIndex ∨ e2 = playerIndex)
  | CollisionEvent.Stopped _ _ _ => false

/-- A concrete dead mid-game state (score 5, pipes moved) used to evaluate
the restart branch. -/
def c1State : GameState :=
  { player :=
      { linvel := ⟨0, -37⟩
        angvel := 2
        translation := ⟨50, -120, 2⟩
        rot_z := -1 / 10
        health := 0
        score := 5 }
    pipes := [⟨⟨PipeType.DOWN, 270⟩, ⟨-310, -200, 0⟩⟩,
              ⟨⟨PipeType.UP, 270⟩, ⟨-310, 240, 0⟩⟩]
    physics_pipeline_active := false
    score_text := "5"
    rng_idx := 4 }

/-- A concrete alive state at the origin with zero velocity (the jump
scenario of the spec). -/
def c3State : GameState :=
  { player :=
      { linvel := ⟨0, 0⟩
        angvel := 0
        translation := ⟨0, 0, 2⟩
        rot_z := 0
        health := 1
        score := 0 }
    pipes := []
    physics_pipeline_active := true
    score_text := "0"
    rng_idx := 0 }

/-- A concrete dead state used for the death-persistence witnesses. -/
def c4State : GameState :=
  { player :=
      { linvel := ⟨0, -80⟩
        angvel := 1
        translation := ⟨0, -250, 2⟩
        rot_z := -2 / 15
        health := 0
        score := 3 }
    pipes := [⟨⟨PipeType.DOWN, 200⟩, ⟨-301, -250, 0⟩⟩]
    physics_pipeline_active := false
    score_text := "3"
    rng_idx := 1 }

/-- A concrete running state with nonzero score, used on the restart
idempotence claim. -/
def c6State : GameState :=
  { player :=
      { linvel := ⟨0, 120⟩
        angvel := 0
        translation := ⟨0, 80, 2⟩
        rot_z := 1 / 5
        health := 1
        score := 7 }
    pipes := [⟨⟨PipeType.DOWN, 340⟩, ⟨12, -210, 0⟩⟩,
              ⟨⟨PipeType.UP, 340⟩, ⟨12, 230, 0⟩⟩]
    physics_pipeline_active := true
    score_text := "7"
    rng_idx := 6 }

/-- A concrete alive state used for the collision-event witnesses. -/
def c7State : GameState :=
  { player :=
      { linvel := ⟨0, -15⟩
        angvel := 0
        translation := ⟨0, 40, 2⟩
        rot_z := -1 / 40
        health := 1
        score := 9 }
    pipes := []
    physics_pipeline_active := true
    score_text := "9"
    rng_idx := 2 }

/-- A concrete alive state whose score sits at the `u8` maximum 255. -/
def c8State : GameState :=
  { player :=
      { linvel := ⟨0, 60⟩
        angvel := 0
        translation := ⟨0, 10, 2⟩
        rot_z := 1 / 10
        health := 1
        score := 255 }
    pipes := []
    physics_pipeline_active := true
    score_text := "255"
    rng_idx := 3 }

/-- A concrete state with a single pipe exactly at the recycle threshold. -/
def c5State : GameState :=
  { player :=
      { linvel := ⟨0, 0⟩
        angvel := 0
        translation := ⟨0, 0, 2⟩
        rot_z := 0
        health := 1
        score := 0 }
    pipes := [⟨⟨PipeType.DOWN, 200⟩, ⟨-300, -250, 0⟩⟩]
    physics_pipeline_active := true
    score_text := "0"
    rng_idx := 0 }

/-- A concrete state holding one adjacent DOWN/UP pair, both past the
recycle threshold. -/
def c2State : GameState :=
  { player :=
      { linvel := ⟨0, 0⟩
        angvel := 0
        translation := ⟨0, 0, 2⟩
        rot_z := 0
        health := 1
        score := 0 }
    pipes := [⟨⟨PipeType.DOWN, 200⟩, ⟨-305, -250, 0⟩⟩,
              ⟨⟨PipeType.UP, 200⟩, ⟨-305, 190, 0⟩⟩]
    physics_pipeline_active := true
    score_text := "0"
    rng_idx := 0 }

/-- A constant random stream drawing `-200` forever (inside fastrand's
requested range). -/
def constRng : ℕ → ℤ := fun _ => -200

/-! ### Helper lemmas -/

/-- Resetting a pipe's x to `original_x` is idempotent. -/
theorem restartPipeReset_idem (pe : PipeEntity) :
    restartPipeReset (restartPipeReset pe) = restartPipeReset pe := rfl

/-- Mapping the restart reset twice over a pipe list equals mapping once. -/
theorem map_restartPipeReset_idem (l : List PipeEntity) :
    (l.map restartPipeReset).map restartPipeReset = l.map restartPipeReset := by
  induction l with
  | nil => rfl
  | cons pe rest ih => simp [ih, restartPipeReset]

/-- One collision event either leaves health unchanged or zeroes it. -/
theorem handleCollisionEvent_health (pi : ℕ) (p : PlayerState)
    (e : CollisionEvent) :
    (handleCollisionEvent pi p e).health = p.health ∨
      (handleCollisionEvent pi p e).health = 0 := by
  cases e with
  | Started e1 e2 sf =>
    by_cases h1 : sf = true ∧ (e1 = pi ∨ e2 = pi)
    · exact Or.inl (by simp [handleCollisionEvent, h1])
    · by_cases h2 : e1 = pi ∨ e2 = pi
      · have hsf : sf = false := by
          cases sf
          · rfl
          · exact absurd ⟨rfl, h2⟩ h1
        exact Or.inr (by simp [handleCollisionEvent, hsf, h2])
      · exact Or.inl (by simp [handleCollisionEvent, h1, h2])
  | Stopped e1 e2 sf => exact Or.inl rfl

/-- Draining any event list preserves a zero health. -/
theorem foldl_health_zero (pi : ℕ) (evs : List CollisionEvent)
    (p : PlayerState) (h : p.health = 0) :
    (evs.foldl (handleCollisionEvent pi) p).health = 0 := by
  induction evs generalizing p with
  | nil => exact h
  | cons e rest ih =>
    apply ih
    rcases handleCollisionEvent_health pi p e with h' | h'
    · rw [h', h]
    · exact h'

/-- No collision event changes `linvel`. -/
theorem handleCollisionEvent_linvel (pi : ℕ) (p : PlayerState)
    (e : CollisionEvent) : (handleCollisionEvent pi p e).linvel = p.linvel := by
  cases e with
  | Started e1 e2 sf =>
    simp only [handleCollisionEvent]
    split <;> [rfl; skip]
    split <;> rfl
  | Stopped e1 e2 sf => rfl

/-- Draining a nonempty list of player-lethal events zeroes health and
touches nothing else. -/
theorem foldl_lethal (pi : ℕ) (evs : List CollisionEvent) (p : PlayerState)
    (h : ∀ e ∈ evs, isLethalFor pi e = true) :
    evs.foldl (handleCollisionEvent pi) p =
      if evs = [] then p else { p with health := 0 } := by
  induction evs generalizing p with
  | nil => rfl
  | cons e rest ih =>
    have he : isLethalFor pi e = true := h e (List.mem_cons_self e rest)
    have hstep : handleCollisionEvent pi p e = { p with health := 0 } := by
      cases e with
      | Started e1 e2 sf =>
        simp only [isLethalFor, decide_eq_true_eq, Bool.decide_and,
          Bool.and_eq_true, decide_eq_true_eq] at he
        obtain ⟨hsf, hp⟩ := he
        have hsf' : sf = false := by
          cases sf
          · rfl
          · simp at hsf
        subst hsf'
        simp [handleCollisionEvent, hp]
      | Stopped e1 e2 sf => simp [isLethalFor] at he
    have hrest : ∀ e' ∈ rest, isLethalFor pi e' = true := fun e' he' =>
      h e' (List.mem_cons_of_mem e he')
    simp only [List.foldl_cons, hstep, ih _ hrest]
    by_cases hr : rest = (.nil : List CollisionEvent)
    · simp [hr]
    · simp [hr]

/-- One collision event keeps the score below 2^8. -/
theorem handleCollisionEvent_score_lt (pi : ℕ) (p : PlayerState)
    (e : CollisionEvent) (h : p.score < 2 ^ 8) :
    (handleCollisionEvent pi p e).score < 2 ^ 8 := by
  cases e with
  | Started e1 e2 sf =>
    simp only [handleCollisionEvent]
    split_ifs with h1 h2
    · exact Nat.mod_lt _ (by norm_num)
    · exact h
    · exact h
  | Stopped e1 e2 sf => exact h

/-- Draining any event list keeps the score below 2^8. -/
theorem foldl_score_lt (pi : ℕ) (evs : List CollisionEvent) (p : PlayerState)
    (h : p.score < 2 ^ 8) :
    (evs.foldl (handleCollisionEvent pi) p).score < 2 ^ 8 := by
  induction evs generalizing p with
  | nil => exact h
  | cons e rest ih => exact ih _ (handleCollisionEvent_score_lt pi p e h)

/-- The pipe pass preserves the number of pipes. -/
theorem processPipesGo_length (rng : ℕ → ℤ) (y : ℚ) (idx : ℕ)
    (l : List PipeEntity) : (processPipesGo rng y idx l).1.length = l.length := by
  induction l generalizing y idx with
  | nil => rfl
  | cons pe rest ih =>
    simp only [processPipesGo]
    split_ifs <;> simp [ih]

/-- Pointwise effect of the pipe pass on x: a pipe at or past the recycle
threshold is moved to `pipeRespawnX`, any other pipe keeps its x. -/
theorem processPipesGo_x (rng : ℕ → ℤ) (y : ℚ) (idx : ℕ)
    (l : List PipeEntity) :
    ∀ i, i < l.length →
      ((processPipesGo rng y idx l).1.getD i defaultPipe).translation.x =
        if (l.getD i defaultPipe).translation.x ≤ pipeRecycleThreshold
        then pipeRespawnX else (l.getD i defaultPipe).translation.x := by
  induction l generalizing y idx with
  | nil => intro i hi; simp at hi
  | cons pe rest ih =>
    intro i hi
    cases i with
    | zero =>
      by_cases hx : pe.translation.x ≤ pipeRecycleThreshold
      · by_cases ht : pe.pipe.pipe_type = PipeType.DOWN
        · simp [processPipesGo, hx, ht]
        · simp [processPipesGo, hx, ht]
      · simp [processPipesGo, hx]
    | succ n =>
      have hn : n < rest.length := by simpa using hi
      by_cases hx : pe.translation.x ≤ pipeRecycleThreshold
      · by_cases ht : pe.pipe.pipe_type = PipeType.DOWN
        · simpa [processPipesGo, hx, ht] using
            ih ((rng idx : ℤ) : ℚ) (idx + 1) n hn
        · simpa [processPipesGo, hx, ht] using ih y idx n hn
      · simpa [processPipesGo, hx] using ih y idx n hn

/-- The pipe pass distributes over list append, threading the
`(y_offset, index)` state of the first part into the second. -/
theorem processPipesGo_append (rng : ℕ → ℤ) (y : ℚ) (idx : ℕ)
    (a b : List PipeEntity) :
    processPipesGo rng y idx (a ++ b) =
      ((processPipesGo rng y idx a).1 ++
        (processPipesGo rng (processPipesGo rng y idx a).2.1
          (processPipesGo rng y idx a).2.2 b).1,
       (processPipesGo rng (processPipesGo rng y idx a).2.1
          (processPipesGo rng y idx a).2.2 b).2) := by
  induction a generalizing y idx with
  | nil => simp [processPipesGo]
  | cons pe rest ih =>
    simp only [List.cons_append, processPipesGo]
    split_ifs <;> simp [ih]

/-- `getD` past an appended prefix reads from the suffix. -/
theorem getD_append_add {α : Type} (A B : List α) (d : α) (n : ℕ) :
    (A ++ B).getD (A.length + n) d = B.getD n d := by
  induction A with
  | nil => simp
  | cons a rest ih =>
    have hidx : (a :: rest).length + n = (rest.length + n) + 1 := by
      simp [List.length_cons]
      omega
    rw [List.cons_append, hidx, List.getD_cons_succ, ih]

/-- `getD` at the length of an appended prefix reads the suffix head. -/
theorem getD_append_len {α : Type} (A B : List α) (d : α) :
    (A ++ B).getD A.length d = B.getD 0 d := by
  simpa using getD_append_add A B d 0

/-- `getD` one past the length of an appended prefix reads the suffix's
second element. -/
theorem getD_append_len_succ {α : Type} (A B : List α) (d : α) :
    (A ++ B).getD (A.length + 1) d = B.getD 1 d :=
  getD_append_add A B d 1

/-! ### Claim theorems -/

/-- C1: processing a restart input edge resets every pipe's x to its
`original_x` (y and z unchanged), puts the player at the world origin with
zero linear and angular velocity and zero rotation, sets health to 1 and
re-enables physics stepping — but, contrary to the claim, the score is NOT
reset to 0: the restart branch of `process_player_input` never touches the
`Score` component, as this evaluation at a dead state with score 5 shows
(the post-restart score is still 5). -/
theorem C1_restart_score_not_reset :
    process_player_input ⟨false, true⟩ c1State =
      { player :=
          { linvel := ⟨0, 0⟩
            angvel := 0
            translation := ⟨0, 0, 0⟩
            rot_z := 0
            health := 1
            score := 5 }
        pipes := [⟨⟨PipeType.DOWN, 270⟩, ⟨270, -200, 0⟩⟩,
                  ⟨⟨PipeType.UP, 270⟩, ⟨270, 240, 0⟩⟩]
        physics_pipeline_active := true
        score_text := "5"
        rng_idx := 4 } ∧
    (process_player_input ⟨false, true⟩ c1State).player.score ≠ 0 := by
  exact ⟨by decide, by decide⟩

/-- C3: on a jump input edge (restart not pressed), with positive health
and y below the top of the screen, the vertical velocity is overwritten to
`JUMP_FORCE = 300`, the horizontal velocity is left untouched (it is 0 by
the design invariant stated in the spec), and the rotation becomes
`300 / JUMP_FORCE * 0.5 = 0.5` radians. -/
theorem C3_jump_impulse (input : InputState) (s : GameState)
    (hspace : input.space_just_pressed = true)
    (hr : input.r_just_pressed = false)
    (hy : s.player.translation.y < SCREEN_HEIGHT / 2)
    (hh : 0 < s.player.health)
    (hx : s.player.linvel.x = 0) :
    (process_player_input input s).player.linvel.x = s.player.linvel.x ∧
    (process_player_input input s).player.linvel.y = JUMP_FORCE ∧
    (process_player_input input s).player.rot_z = 1 / 2 := by
  refine ⟨?_, ?_, ?_⟩
  · simp [process_player_input, hspace, hr, hy, hh, hx]
  · simp [process_player_input, hspace, hr, hy, hh]
  · norm_num [process_player_input, hspace, hr, hy, hh, JUMP_FORCE]

/-- C3 witness: the spec's jump scenario, an alive player at the origin
with velocity (0, 0). -/
theorem C3_jump_impulse_witness :
    (process_player_input ⟨true, false⟩ c3State).player.linvel.x =
      c3State.player.linvel.x ∧
    (process_player_input ⟨true, false⟩ c3State).player.linvel.y = JUMP_FORCE ∧
    (process_player_input ⟨true, false⟩ c3State).player.rot_z = 1 / 2 :=
  C3_jump_impulse ⟨true, false⟩ c3State rfl rfl
    (by norm_num [c3State, SCREEN_HEIGHT]) (by decide) rfl

/-- C4: once health is 0 it stays 0 under collision handling, pipe
processing, the health check and the score display, and under player input
without a restart edge; moreover a jump input while health is 0 leaves the
player's velocity unchanged. -/
theorem C4_death_persists (pi : ℕ) (evs : List CollisionEvent) (rng : ℕ → ℤ)
    (input : InputState) (s : GameState) (h : s.player.health = 0) :
    (handle_collision_events pi evs s).player.health = 0 ∧
    (process_pipes rng s).player.health = 0 ∧
    (check_player_health s).player.health = 0 ∧
    (update_score s).player.health = 0 ∧
    (input.r_just_pressed = false →
      (process_player_input input s).player.health = 0 ∧
      (process_player_input input s).player.linvel = s.player.linvel) := by
  refine ⟨foldl_health_zero pi evs s.player h, h, ?_, h, ?_⟩
  · simp [check_player_health, h]
  · intro hr
    constructor
    · simp [process_player_input, hr, h]
    · simp [process_player_input, hr, h]

/-- C4 witness: a concrete dead state, a lethal and a sensor event, the
constant random stream and a jump-only input. -/
theorem C4_death_persists_witness :
    (handle_collision_events 0
        [CollisionEvent.Started 0 3 false, CollisionEvent.Started 0 7 true]
        c4State).player.health = 0 ∧
    (process_pipes constRng c4State).player.health = 0 ∧
    (check_player_health c4State).player.health = 0 ∧
    (update_score c4State).player.health = 0 ∧
    (process_player_input ⟨true, false⟩ c4State).player.health = 0 ∧
    (process_player_input ⟨true, false⟩ c4State).player.linvel =
      c4State.player.linvel := by
  have h := C4_death_persists 0
    [CollisionEvent.Started 0 3 false, CollisionEvent.Started 0 7 true]
    constRng ⟨true, false⟩ c4State rfl
  exact ⟨h.1, h.2.1, h.2.2.1, h.2.2.2.1, (h.2.2.2.2 rfl).1, (h.2.2.2.2 rfl).2⟩

/-- C6 counterexample: the claim describes the once-restarted state as
having score zero; restarting from a running state with score 7 leaves the
score at 7. -/
theorem C6_restart_score_counterexample :
    (process_player_input ⟨false, true⟩ c6State).player.score ≠ 0 := by
  decide

/-- C6 amended: applying the restart operation twice in immediate
succession yields exactly the same state as applying it once; that state
has the player at the origin with zero velocity, zero angular velocity,
zero rotation, health 1, physics stepping enabled and every pipe at its
`original_x` — with the score carried over unchanged from the pre-state
rather than zeroed. -/
theorem C6_restart_idempotent (s : GameState) (sp1 sp2 : Bool) :
    process_player_input ⟨sp2, true⟩ (process_player_input ⟨sp1, true⟩ s) =
      process_player_input ⟨sp1, true⟩ s ∧
    (process_player_input ⟨sp1, true⟩ s).player.translation = ⟨0, 0, 0⟩ ∧
    (process_player_input ⟨sp1, true⟩ s).player.linvel = ⟨0, 0⟩ ∧
    (process_player_input ⟨sp1, true⟩ s).player.angvel = 0 ∧
    (process_player_input ⟨sp1, true⟩ s).player.rot_z = 0 ∧
    (process_player_input ⟨sp1, true⟩ s).player.health = 1 ∧
    (process_player_input ⟨sp1, true⟩ s).player.score = s.player.score ∧
    (process_player_input ⟨sp1, true⟩ s).pipes = s.pipes.map restartPipeReset ∧
    (process_player_input ⟨sp1, true⟩ s).physics_pipeline_active = true := by
  constructor
  · cases sp2 <;>
      simp [process_player_input, map_restartPipeReset_idem,
        restartPipeReset_idem, SCREEN_HEIGHT, JUMP_FORCE]
  · refine ⟨rfl, rfl, rfl, rfl, rfl, ?_, rfl, rfl⟩
    show (process_player_input ⟨sp1, true⟩ s).player.score = s.player.score
    simp only [process_player_input]
    split_ifs <;> rfl

/-- C7: draining any nonempty batch of non-sensor `Started` events naming
the player sets the player's health to 0 and changes nothing else (in
particular the score is unchanged), and doing so is idempotent in the
number of such events: any nonempty batch yields the same post-state. -/
theorem C7_lethal_contact (pi : ℕ) (evs : List CollisionEvent) (s : GameState)
    (h1 : ∀ e ∈ evs, isLethalFor pi e = true) (h2 : evs ≠ []) :
    handle_collision_events pi evs s =
      { s with player := { s.player with health := 0 } } := by
  simp only [handle_collision_events, foldl_lethal pi evs s.player h1,
    if_neg h2]

/-- C7 witness: two lethal contacts in one tick, player entity index 0. -/
theorem C7_lethal_contact_witness :
    handle_collision_events 0
        [CollisionEvent.Started 0 3 false, CollisionEvent.Started 5 0 false]
        c7State =
      { c7State with player := { c7State.player with health := 0 } } :=
  C7_lethal_contact 0
    [CollisionEvent.Started 0 3 false, CollisionEvent.Started 5 0 false]
    c7State (by decide) (by decide)

/-- C8 counterexample: with the score at the `u8` maximum 255, a sensor
overlap naming the player does not increment the score by exactly 1 — the
unchecked `+= 1` wraps it to 0 instead of 256. -/
theorem C8_sensor_scoring_counterexample :
    (handle_collision_events 0 [CollisionEvent.Started 0 3 true]
        c8State).player.score ≠ c8State.player.score + 1 := by
  decide

/-- C8 amended: a sensor-flagged `Started` event naming the player
increments the score by exactly 1 whenever the score is below 255 (the
`u8` increment wraps at 255) and changes nothing else — health, velocity
and the rest of the state are untouched; an event naming neither
participant as the player leaves the state entirely unchanged. -/
theorem C8_sensor_scoring (pi e1 e2 : ℕ) (sf : Bool) (s : GameState) :
    ((e1 = pi ∨ e2 = pi) → s.player.score < 255 →
      handle_collision_events pi [CollisionEvent.Started e1 e2 true] s =
        { s with player :=
            { s.player with score := s.player.score + 1 } }) ∧
    (e1 ≠ pi → e2 ≠ pi →
      handle_collision_events pi [CollisionEvent.Started e1 e2 sf] s = s) := by
  constructor
  · intro hp hs
    simp [handle_collision_events, handleCollisionEvent, hp]
    omega
  · intro hp1 hp2
    simp [handle_collision_events, handleCollisionEvent, hp1, hp2]

/-- C8 witness: a scoring pass at score 9, and a bystander event. -/
theorem C8_sensor_scoring_witness :
    handle_collision_events 0 [CollisionEvent.Started 0 3 true] c7State =
      { c7State with player :=
          { c7State.player with score := c7State.player.score + 1 } } ∧
    handle_collision_events 0 [CollisionEvent.Started 4 3 false] c7State =
      c7State :=
  ⟨(C8_sensor_scoring 0 0 3 false c7State).1 (Or.inl rfl) (by decide),
   (C8_sensor_scoring 0 4 3 false c7State).2 (by decide) (by decide)⟩

/-- C9: whenever the player's health is 0, `check_player_health` turns the
physics-stepping switch off on that tick; none of the other tick systems
ever changes the switch, and a restart input is the only operation that
sets it back to true — doing which also sets health to 1, so the switch
never becomes true while health remains 0. -/
theorem C9_freeze_on_death (s : GameState) (h : s.player.health = 0) :
    (check_player_health s).physics_pipeline_active = false ∧
    (∀ pi evs, (handle_collision_events pi evs s).physics_pipeline_active =
      s.physics_pipeline_active) ∧
    (∀ rng, (process_pipes rng s).physics_pipeline_active =
      s.physics_pipeline_active) ∧
    ((update_score s).physics_pipeline_active = s.physics_pipeline_active) ∧
    (∀ input : InputState, input.r_just_pressed = false →
      (process_player_input input s).physics_pipeline_active =
        s.physics_pipeline_active) ∧
    (∀ input : InputState, input.r_just_pressed = true →
      (process_player_input input s).physics_pipeline_active = true ∧
      (process_player_input input s).player.health = 1) := by
  refine ⟨?_, fun pi evs => rfl, fun rng => rfl, rfl, ?_, ?_⟩
  · simp [check_player_health, h]
  · intro input hr
    simp [process_player_input, hr]
  · intro input hr
    constructor
    · simp [process_player_input, hr]
    · simp [process_player_input, hr]

/-- C9 witness: a dead frozen state, each tick system instantiated. -/
theorem C9_freeze_on_death_witness :
    (check_player_health c4State).physics_pipeline_active = false ∧
    (handle_collision_events 0 [CollisionEvent.Started 0 2 false]
        c4State).physics_pipeline_active = c4State.physics_pipeline_active ∧
    (process_pipes constRng c4State).physics_pipeline_active =
      c4State.physics_pipeline_active ∧
    (update_score c4State).physics_pipeline_active =
      c4State.physics_pipeline_active ∧
    (process_player_input ⟨true, false⟩ c4State).physics_pipeline_active =
      c4State.physics_pipeline_active ∧
    (process_player_input ⟨false, true⟩ c4State).physics_pipeline_active =
      true ∧
    (process_player_input ⟨false, true⟩ c4State).player.health = 1 := by
  have h := C9_freeze_on_death c4State rfl
  exact ⟨h.1, h.2.1 0 [CollisionEvent.Started 0 2 false], h.2.2.1 constRng,
    h.2.2.2.1, h.2.2.2.2.1 ⟨true, false⟩ rfl,
    (h.2.2.2.2.2 ⟨false, true⟩ rfl).1, (h.2.2.2.2.2 ⟨false, true⟩ rfl).2⟩

/-- C10: the score is an 8-bit counter — collision handling keeps it below
2^8 — and the sensor overlap that would raise it past 255 wraps it to 0
(modulo 2^8) instead of continuing the count. -/
theorem C10_score_u8_wrap (pi : ℕ) (evs : List CollisionEvent)
    (s : GameState) (h : s.player.score < 2 ^ 8) :
    (handle_collision_events pi evs s).player.score < 2 ^ 8 ∧
    (∀ e1 e2, (e1 = pi ∨ e2 = pi) → s.player.score = 255 →
      (handle_collision_events pi [CollisionEvent.Started e1 e2 true]
        s).player.score = 0) := by
  constructor
  · exact foldl_score_lt pi evs s.player h
  · intro e1 e2 hp h255
    simp [handle_collision_events, handleCollisionEvent, hp, h255]

/-- C10 witness: a sensor pass at the `u8` maximum score 255 wraps to 0. -/
theorem C10_score_u8_wrap_witness :
    (handle_collision_events 0 [CollisionEvent.Started 0 3 true]
        c8State).player.score < 2 ^ 8 ∧
    (handle_collision_events 0 [CollisionEvent.Started 0 3 true]
        c8State).player.score = 0 := by
  have h := C10_score_u8_wrap 0 [CollisionEvent.Started 0 3 true] c8State
    (by decide)
  exact ⟨h.1, h.2 0 3 (Or.inl rfl) rfl⟩

/-- C5 counterexample: a pipe recycled at the threshold is moved to
`pipeRespawnX = SCREEN_WIDTH / 2 + 70 = 270`, which is not the claimed
"screen-right edge plus one pipe-width unit": the pipe width is 50 (the
collider half-extent is 25, and the source's own threshold comment says
"50 is the pipe's width"), and `400 / 2 + 50 = 250 ≠ 270`. -/
theorem C5_respawn_counterexample :
    ((process_pipes constRng c5State).pipes.getD 0
        defaultPipe).translation.x = pipeRespawnX ∧
    pipeRespawnX ≠ SCREEN_WIDTH / 2 + 50 := by
  constructor
  · norm_num [process_pipes, processPipesGo, c5State, pipeRecycleThreshold,
      pipeRespawnX, SCREEN_WIDTH, constRng]
  · norm_num [pipeRespawnX, SCREEN_WIDTH]

/-- C5 amended: on any tick of `process_pipes`, every pipe whose x is at
or below the recycle threshold `-SCREEN_WIDTH/2 - 100 = -300` has its x
reset on that same tick to `SCREEN_WIDTH/2 + 70 = 270` (screen-right edge
plus the 70-unit horizontal pipe spacing, not plus one 50-unit pipe
width); every other pipe keeps its x, so after the pass no pipe sits at or
below the threshold and no pipe's x drifts left without bound. -/
theorem C5_recycle_threshold (rng : ℕ → ℤ) (s : GameState) (i : ℕ)
    (hi : i < s.pipes.length) :
    (((s.pipes.getD i defaultPipe).translation.x ≤ pipeRecycleThreshold →
      ((process_pipes rng s).pipes.getD i defaultPipe).translation.x =
        pipeRespawnX) ∧
    (pipeRecycleThreshold < (s.pipes.getD i defaultPipe).translation.x →
      ((process_pipes rng s).pipes.getD i defaultPipe).translation.x =
        (s.pipes.getD i defaultPipe).translation.x)) ∧
    pipeRecycleThreshold <
      ((process_pipes rng s).pipes.getD i defaultPipe).translation.x := by
  have hpipes : (process_pipes rng s).pipes =
      (processPipesGo rng 0 s.rng_idx s.pipes).1 := rfl
  have hx := processPipesGo_x rng 0 s.rng_idx s.pipes i hi
  rw [hpipes, hx]
  refine ⟨⟨fun h => ?_, fun h => ?_⟩, ?_⟩
  · rw [if_pos h]
  · rw [if_neg (not_le.mpr h)]
  · by_cases h : (s.pipes.getD i defaultPipe).translation.x ≤
        pipeRecycleThreshold
    · rw [if_pos h]
      norm_num [pipeRecycleThreshold, pipeRespawnX, SCREEN_WIDTH]
    · rw [if_neg h]
      exact not_le.mp h

/-- C5 witness: the single pipe of `c5State` sits exactly at the recycle
threshold and is respawned at x = 270 on the same tick. -/
theorem C5_recycle_threshold_witness :
    ((process_pipes constRng c5State).pipes.getD 0
        defaultPipe).translation.x = pipeRespawnX ∧
    pipeRecycleThreshold <
      ((process_pipes constRng c5State).pipes.getD 0
        defaultPipe).translation.x := by
  have h := C5_recycle_threshold constRng c5State 0 (by decide)
  exact ⟨h.1.1 (by norm_num [c5State, pipeRecycleThreshold, SCREEN_WIDTH]),
    h.2⟩

/-- C2: when an adjacent DOWN/UP pair is recycled in one `process_pipes`
pass (both members at or past the recycle threshold, the DOWN member
visited first), the DOWN member's new y is the freshly drawn random value
`v ∈ [-SCREEN_HEIGHT/2, -180)` and the UP member's new y is
`v + 320 + 120`, so `upper.y - lower.y = 120 + 320` immediately after the
pass. -/
theorem C2_gap_invariant (rng : ℕ → ℤ) (s : GameState)
    (l1 l2 : List PipeEntity) (pd pu : PipeEntity)
    (hsplit : s.pipes = l1 ++ pd :: pu :: l2)
    (hd : pd.pipe.pipe_type = PipeType.DOWN)
    (hu : pu.pipe.pipe_type = PipeType.UP)
    (hdx : pd.translation.x ≤ pipeRecycleThreshold)
    (hux : pu.translation.x ≤ pipeRecycleThreshold)
    (hrng : ∀ n, -(600 : ℤ) / 2 ≤ rng n ∧ rng n < -180) :
    ∃ v : ℚ,
      ((process_pipes rng s).pipes.getD l1.length
          defaultPipe).translation.y = v ∧
      ((process_pipes rng s).pipes.getD (l1.length + 1)
          defaultPipe).translation.y =
        v + 320 + VERTICAL_SPACE_BETWEEN_PIPES ∧
      ((process_pipes rng s).pipes.getD (l1.length + 1)
            defaultPipe).translation.y -
          ((process_pipes rng s).pipes.getD l1.length
            defaultPipe).translation.y =
        VERTICAL_SPACE_BETWEEN_PIPES + 320 ∧
      -(SCREEN_HEIGHT / 2) ≤ v ∧ v < -180 := by
  have hpipes : (process_pipes rng s).pipes =
      (processPipesGo rng 0 s.rng_idx s.pipes).1 := rfl
  have happ := processPipesGo_append rng 0 s.rng_idx l1 (pd :: pu :: l2)
  set A := processPipesGo rng 0 s.rng_idx l1 with hA
  have hvlt : ((rng A.2.2 : ℤ) : ℚ) < -180 := by
    exact_mod_cast (hrng A.2.2).2
  have hvne : ((rng A.2.2 : ℤ) : ℚ) ≠ 0 :=
    ne_of_lt (lt_trans hvlt (by norm_num))
  have hvge : -(SCREEN_HEIGHT / 2) ≤ ((rng A.2.2 : ℤ) : ℚ) := by
    have h1 : (-300 : ℤ) ≤ rng A.2.2 := by
      have := (hrng A.2.2).1
      omega
    have h2 : ((-300 : ℤ) : ℚ) ≤ ((rng A.2.2 : ℤ) : ℚ) := by
      exact_mod_cast h1
    norm_num [SCREEN_HEIGHT]
    exact_mod_cast h2
  have hne : ¬ pu.pipe.pipe_type = PipeType.DOWN := by
    rw [hu]
    intro hc
    cases hc
  have hB : (processPipesGo rng A.2.1 A.2.2 (pd :: pu :: l2)).1 =
      ⟨pd.pipe, ⟨pipeRespawnX, ((rng A.2.2 : ℤ) : ℚ), pd.translation.z⟩⟩ ::
        ⟨pu.pipe, ⟨pipeRespawnX,
          ((rng A.2.2 : ℤ) : ℚ) + 320 + VERTICAL_SPACE_BETWEEN_PIPES,
          pu.translation.z⟩⟩ ::
        (processPipesGo rng ((rng A.2.2 : ℤ) : ℚ) (A.2.2 + 1) l2).1 := by
    simp only [processPipesGo, if_pos hdx, hd, if_pos hux, hne,
      if_pos hvne, if_true, if_false, ite_true, ite_false]
  have hlen : A.1.length = l1.length :=
    processPipesGo_length rng 0 s.rng_idx l1
  have hget0 : (process_pipes rng s).pipes.getD l1.length defaultPipe =
      ⟨pd.pipe, ⟨pipeRespawnX, ((rng A.2.2 : ℤ) : ℚ), pd.translation.z⟩⟩ := by
    rw [hpipes, hsplit, happ]
    dsimp only
    rw [← hlen, getD_append_len, hB]
    rfl
  have hget1 : (process_pipes rng s).pipes.getD (l1.length + 1)
        defaultPipe =
      ⟨pu.pipe, ⟨pipeRespawnX,
        ((rng A.2.2 : ℤ) : ℚ) + 320 + VERTICAL_SPACE_BETWEEN_PIPES,
        pu.translation.z⟩⟩ := by
    rw [hpipes, hsplit, happ]
    dsimp only
    rw [← hlen, getD_append_len_succ, hB]
    rfl
  refine ⟨((rng A.2.2 : ℤ) : ℚ), ?_, ?_, ?_, hvge, hvlt⟩
  · rw [hget0]
  · rw [hget1]
  · rw [hget0, hget1]
    ring

/-- C2 witness: a concrete adjacent DOWN/UP pair, both at x = -305, with
the constant random stream drawing -200. -/
theorem C2_gap_invariant_witness :
    ∃ v : ℚ,
      ((process_pipes constRng c2State).pipes.getD 0
          defaultPipe).translation.y = v ∧
      ((process_pipes constRng c2State).pipes.getD 1
          defaultPipe).translation.y =
        v + 320 + VERTICAL_SPACE_BETWEEN_PIPES ∧
      ((process_pipes constRng c2State).pipes.getD 1
            defaultPipe).translation.y -
          ((process_pipes constRng c2State).pipes.getD 0
            defaultPipe).translation.y =
        VERTICAL_SPACE_BETWEEN_PIPES + 320 ∧
      -(SCREEN_HEIGHT / 2) ≤ v ∧ v < -180 :=
  C2_gap_invariant constRng c2State [] []
    ⟨⟨PipeType.DOWN, 200⟩, ⟨-305, -250, 0⟩⟩
    ⟨⟨PipeType.UP, 200⟩, ⟨-305, 190, 0⟩⟩
    rfl rfl rfl
    (by norm_num [pipeRecycleThreshold, SCREEN_WIDTH])
    (by norm_num [pipeRecycleThreshold, SCREEN_WIDTH])
    (fun n => ⟨by norm_num [constRng], by norm_num [constRng]⟩)

end FlappyBevy
